import Mathlib

/-!
Shallow embedding of the `useLiveSession` hook (src/unnamed/part_000) of the
serene-ai repository, together with the transcript persistence boundary
(`saveTranscript` in src/utils/firebase.ts).  Time values (the Web Audio
clock, segment durations, the playback cursor `nextStartTimeRef`) are
modelled as rationals.  The persistence collaborator is external, so a call
to `saveTranscript` is recorded verbatim in an append-only write log.
Resource handles (AudioContexts, the microphone MediaStream) are modelled by
natural-number identifiers drawn from a fresh counter; a handle stays in the
corresponding live list until the code closes or stops it, which makes leaks
observable.  `statusLog` records every `setStatus` call in order, so that
transient status values are visible; it is pure event-history
instrumentation and carries no program state.
-/

/-- The four session status values of `SessionStatus` in the hook. -/
inductive SessionStatus where
  | disconnected
  | connecting
  | connected
  | error
deriving DecidableEq, Repr

/-- One call to `saveTranscript(role, text, sessionId)`, the single write
operation of the external persistence collaborator. -/
structure TranscriptWrite where
  role : String
  text : String
  sessionId : String
deriving DecidableEq, Repr

/-- A scheduled playback segment: the absolute start time passed to
`source.start(...)` and the decoded buffer duration. -/
structure Segment where
  start : ℚ
  duration : ℚ
deriving DecidableEq, Repr

/-- The playback scheduler state: `cursor` is `nextStartTimeRef.current`,
`sources` is `activeSourcesRef.current` in insertion order. -/
structure Sched where
  cursor : ℚ
  sources : List Segment
deriving DecidableEq, Repr

/-- One enqueue of a decoded segment, following onmessage step 4 of the hook:
`nextStartTime = max(nextStartTime, ctx.currentTime)`, then
`source.start(nextStartTime)`, then `nextStartTime += audioBuffer.duration`,
then the source is added to the active set.  Returns the started segment
together with the updated scheduler state. -/
def enqueue (now d : ℚ) (s : Sched) : Segment × Sched :=
  let start := max s.cursor now
  let seg : Segment := ⟨start, d⟩
  (seg, { cursor := start + d, sources := s.sources ++ [seg] })

/-- The scheduler reset performed by the interruption branch of onmessage
(and named `flushAll` by the spec): the active set is cleared and
`nextStartTimeRef.current = 0`.  The stop calls on the individual sources are
recorded at the hook level in `stopLog`. -/
def flushAll (_s : Sched) : Sched := { cursor := 0, sources := [] }

/-- Folding a list of enqueue events `(clock time, duration)` over a
scheduler state, keeping only the state. -/
def runEnqueues (s : Sched) : List (ℚ × ℚ) → Sched
  | [] => s
  | e :: evs => runEnqueues (enqueue e.1 e.2 s).2 evs

/-- The list of segments produced by a sequence of enqueue events starting
from cursor value `c`, written as a direct recursion for proofs. -/
def schedule (c : ℚ) : List (ℚ × ℚ) → List Segment
  | [] => []
  | (now, d) :: evs => ⟨max c now, d⟩ :: schedule (max c now + d) evs

/-- An inbound frame of the live channel, as destructured by onmessage:
optional input and output transcription fragments, the `turnComplete` and
`interrupted` flags, and the optional inline audio payload.  Only the
decoded duration of the audio payload is relevant to the scheduler, so the
payload is carried as that duration (`decodeAudioData` lives in
src/utils/audioUtils, which only the hook consumes). -/
structure ServerMessage where
  inputTranscription : Option String
  outputTranscription : Option String
  turnComplete : Bool
  interrupted : Bool
  audioData : Option ℚ
deriving DecidableEq, Repr

/-- The full mutable state of one `useLiveSession` hook instance. -/
structure HookState where
  status : SessionStatus
  statusLog : List SessionStatus
  volume : ℚ
  isSpeaking : Bool
  sched : Sched
  stopLog : List Segment
  enqueueLog : List Segment
  currentInput : String
  currentOutput : String
  sessionId : String
  writes : List TranscriptWrite
  streamRef : Option Nat
  liveMicStreams : List Nat
  inputContextRef : Option Nat
  outputContextRef : Option Nat
  openContexts : List Nat
  outputGainSet : Bool
  rafActive : Bool
  sessionRefSet : Bool
  captureActive : Bool
  micAcquisitions : Nat
  channelOpens : Nat
  nextId : Nat
deriving DecidableEq, Repr

/-- `setStatus(s)`: updates the reactive status and records the call in the
event history. -/
def setStatus (s : SessionStatus) (st : HookState) : HookState :=
  { st with status := s, statusLog := st.statusLog ++ [s] }

/-- Closing an AudioContext through its ref: the context leaves the live
list; a null ref closes nothing. -/
def closeCtx (ref : Option Nat) (ctxs : List Nat) : List Nat :=
  match ref with
  | some c => ctxs.filter (· != c)
  | none => ctxs

/-- Stopping the tracks of the mic stream held by `streamRef`: that stream
leaves the live list; a null ref stops nothing. -/
def stopStream (ref : Option Nat) (streams : List Nat) : List Nat :=
  match ref with
  | some s => streams.filter (· != s)
  | none => streams

/-- The write log after the teardown flush of `cleanup`: the pending user
buffer is saved first, then the pending model buffer, each only when
non-empty (`if (currentInputRef.current)` truthiness). -/
def flushedWrites (st : HookState) : List TranscriptWrite :=
  st.writes
    ++ (if st.currentInput = "" then []
        else [⟨"user", st.currentInput, st.sessionId⟩])
    ++ (if st.currentOutput = "" then []
        else [⟨"model", st.currentOutput, st.sessionId⟩])

/-- `cleanup` (exposed as `disconnect`): nulls the session ref, stops and
clears every active source, disconnects the audio nodes, closes both
AudioContexts, stops the mic stream tracks, cancels the volume loop, flushes
both pending transcript buffers, nulls the context refs, and sets status
disconnected, speaking false, volume 0.  Written as one record: the
sequential steps of the source act on disjoint fields, with the flush
reading the buffers and session id unchanged by the earlier steps.  Note the
playback cursor `sched.cursor` is not reset here. -/
def cleanup (st : HookState) : HookState :=
  { status := .disconnected
    statusLog := st.statusLog ++ [.disconnected]
    volume := 0
    isSpeaking := false
    sched := { cursor := st.sched.cursor, sources := [] }
    stopLog := st.stopLog ++ st.sched.sources
    enqueueLog := st.enqueueLog
    currentInput := ""
    currentOutput := ""
    sessionId := st.sessionId
    writes := flushedWrites st
    streamRef := none
    liveMicStreams := stopStream st.streamRef st.liveMicStreams
    inputContextRef := none
    outputContextRef := none
    openContexts := closeCtx st.outputContextRef
      (closeCtx st.inputContextRef st.openContexts)
    outputGainSet := st.outputGainSet
    rafActive := false
    sessionRefSet := false
    captureActive := false
    micAcquisitions := st.micAcquisitions
    channelOpens := st.channelOpens
    nextId := st.nextId }

/-- The environment a `connect()` call runs against: whether
`process.env.API_KEY` is present, whether `getUserMedia` grants the
microphone, and the fresh UUID `crypto.randomUUID()` would mint. -/
structure Env where
  hasApiKey : Bool
  micGranted : Bool
  newSessionId : String
deriving DecidableEq, Repr

/-- `connect()`: fails fast to status error when the API key is absent
(before any resource acquisition); otherwise mints a new session id, sets
status connecting, creates the input and output AudioContexts, starts the
volume loop, creates the gain node, requests the microphone, and on grant
stores the stream and opens the live channel.  A `getUserMedia` rejection
lands in the catch block: `setStatus(error)` then `cleanup()`. -/
def connect (env : Env) (st : HookState) : HookState :=
  if !env.hasApiKey then setStatus .error st
  else
    let st1 := { st with sessionId := env.newSessionId }
    let st2 := setStatus .connecting st1
    let inCtx := st2.nextId
    let outCtx := st2.nextId + 1
    let st3 := { st2 with
      inputContextRef := some inCtx
      outputContextRef := some outCtx
      openContexts := st2.openContexts ++ [inCtx, outCtx]
      nextId := st2.nextId + 2 }
    let st4 := { st3 with rafActive := true }
    let st5 := { st4 with outputGainSet := true }
    let st6 := { st5 with micAcquisitions := st5.micAcquisitions + 1 }
    if !env.micGranted then cleanup (setStatus .error st6)
    else
      let mic := st6.nextId
      let st7 := { st6 with
        streamRef := some mic
        liveMicStreams := st6.liveMicStreams ++ [mic]
        nextId := st6.nextId + 1 }
      { st7 with channelOpens := st7.channelOpens + 1, sessionRefSet := true }

/-- The `onopen` callback: sets status connected, then wires the capture
chain only when both the input context and the mic stream refs are
present. -/
def onopen (st : HookState) : HookState :=
  let st1 := setStatus .connected st
  if st1.inputContextRef.isSome && st1.streamRef.isSome then
    { st1 with captureActive := true }
  else st1

/-- onmessage step 1: append any transcription fragments to the respective
buffers (input and output independently). -/
def handleTranscription (m : ServerMessage) (st : HookState) : HookState :=
  let st1 :=
    match m.inputTranscription with
    | some t => { st with currentInput := st.currentInput ++ t }
    | none => st
  match m.outputTranscription with
  | some t => { st1 with currentOutput := st1.currentOutput ++ t }
  | none => st1

/-- onmessage step 2: on `turnComplete`, save the user buffer when
non-empty, then the model buffer when non-empty, and clear the speaking
indicator. -/
def handleTurnComplete (m : ServerMessage) (st : HookState) : HookState :=
  if m.turnComplete then
    let st1 :=
      if st.currentInput = "" then st
      else { st with
        writes := st.writes ++ [⟨"user", st.currentInput, st.sessionId⟩]
        currentInput := "" }
    let st2 :=
      if st1.currentOutput = "" then st1
      else { st1 with
        writes := st1.writes ++ [⟨"model", st1.currentOutput, st1.sessionId⟩]
        currentOutput := "" }
    { st2 with isSpeaking := false }
  else st

/-- onmessage step 3, the body of the `interrupted` branch: save the model
buffer with the truncation marker appended when non-empty, stop every active
source, clear the set, zero the cursor, and clear the speaking indicator. -/
def handleInterruption (st : HookState) : HookState :=
  let st1 :=
    if st.currentOutput = "" then st
    else { st with
      writes := st.writes
        ++ [⟨"model", st.currentOutput ++ " [INTERRUPTED]", st.sessionId⟩]
      currentOutput := "" }
  { st1 with
    stopLog := st1.stopLog ++ st1.sched.sources
    sched := flushAll st1.sched
    isSpeaking := false }

/-- onmessage step 4: when the frame carries inline audio and the output
context and gain node are present, set the speaking indicator, schedule the
decoded buffer gaplessly via `enqueue`, and record the started source. -/
def handleAudio (now : ℚ) (m : ServerMessage) (st : HookState) : HookState :=
  match m.audioData with
  | some d =>
      if st.outputContextRef.isSome && st.outputGainSet then
        let r := enqueue now d st.sched
        { st with
          isSpeaking := true
          sched := r.2
          enqueueLog := st.enqueueLog ++ [r.1] }
      else st
  | none => st

/-- The `onmessage` callback: transcription append, then turn completion,
then the interruption branch, which returns early and so short-circuits the
audio handling of the same frame.  `now` is `ctx.currentTime` at the moment
the frame is handled. -/
def onmessage (now : ℚ) (m : ServerMessage) (st : HookState) : HookState :=
  let st1 := handleTranscription m st
  let st2 := handleTurnComplete m st1
  if m.interrupted then handleInterruption st2
  else handleAudio now m st2

/-- The `onclose` callback: status disconnected, nothing else. -/
def onclose (st : HookState) : HookState :=
  setStatus .disconnected st

/-- The `onerror` callback: logs and sets status error, nothing else. -/
def onerror (st : HookState) : HookState :=
  setStatus .error st

/-- The state of a freshly mounted hook: everything empty, status
disconnected, an initial session id from `crypto.randomUUID()`. -/
def initState : HookState :=
  { status := .disconnected
    statusLog := []
    volume := 0
    isSpeaking := false
    sched := { cursor := 0, sources := [] }
    stopLog := []
    enqueueLog := []
    currentInput := ""
    currentOutput := ""
    sessionId := "uuid-0"
    writes := []
    streamRef := none
    liveMicStreams := []
    inputContextRef := none
    outputContextRef := none
    openContexts := []
    outputGainSet := false
    rafActive := false
    sessionRefSet := false
    captureActive := false
    micAcquisitions := 0
    channelOpens := 0
    nextId := 0 }

/-- The state of an inbound frame handling after onmessage steps 1 and 2
(transcription append and turn completion) and before the interruption
check. -/
def afterTranscripts (m : ServerMessage) (st : HookState) : HookState :=
  handleTurnComplete m (handleTranscription m st)

/-- Exclusive ownership of the audio hardware by the current session: at
most one live mic stream and at most the two session AudioContexts, each
reachable from the refs the teardown path closes. -/
def exclusiveResources (st : HookState) : Prop :=
  st.liveMicStreams.length ≤ 1
  ∧ (∀ s ∈ st.liveMicStreams, st.streamRef = some s)
  ∧ st.openContexts.length ≤ 2
  ∧ (∀ c ∈ st.openContexts, st.inputContextRef = some c ∨ st.outputContextRef = some c)

/-- An environment with the API key present and the microphone granted. -/
def envA : Env := ⟨true, true, "uuid-A"⟩

/-- A second granting environment, for a repeated connect. -/
def envB : Env := ⟨true, true, "uuid-B"⟩

/-- An environment with the API key absent. -/
def envNoKey : Env := ⟨false, true, "uuid-C"⟩

/-- An environment with the API key present but microphone permission
denied. -/
def envMicDenied : Env := ⟨true, false, "uuid-D"⟩

/-- A mid-session state: connected, both transcript buffers non-empty, one
scheduled playback segment, the mic stream and both contexts live. -/
def exStLive : HookState :=
  { initState with
    status := .connected
    isSpeaking := true
    currentInput := "hi"
    currentOutput := "yo"
    sched := { cursor := 3, sources := [{ start := 1, duration := 2 }] }
    streamRef := some 2
    liveMicStreams := [2]
    inputContextRef := some 0
    outputContextRef := some 1
    openContexts := [0, 1]
    outputGainSet := true
    rafActive := true
    sessionRefSet := true
    captureActive := true
    micAcquisitions := 1
    channelOpens := 1
    nextId := 3 }

/-- A frame that signals an interruption and also carries inline audio. -/
def exMsgInterruptAudio : ServerMessage := ⟨none, none, false, true, some (1/2)⟩

/-- A frame that signals turn completion and also carries inline audio. -/
def exMsgTurnAudio : ServerMessage := ⟨none, none, true, false, some (1/2)⟩

/-- A frame with transcription fragments and the turn-complete flag, no
audio. -/
def exMsgTurnOnly : ServerMessage := ⟨some " a", some " b", true, false, none⟩

/-! ## Scheduler lemmas -/

/-- The fold of enqueues appends exactly the segments `schedule` computes. -/
lemma runEnqueues_sources (evs : List (ℚ × ℚ)) :
    ∀ s : Sched, (runEnqueues s evs).sources = s.sources ++ schedule s.cursor evs := by
  induction evs with
  | nil => intro s; simp [runEnqueues, schedule]
  | cons e evs ih =>
      intro s
      obtain ⟨now, d⟩ := e
      rw [runEnqueues, ih]
      simp [enqueue, schedule]

/-- Every schedule starting from cursor `c` starts its first segment no
earlier than `c`. -/
lemma schedule_head_ge (evs : List (ℚ × ℚ)) (c : ℚ) :
    ∀ seg ∈ (schedule c evs).head?, c ≤ seg.start := by
  cases evs with
  | nil => simp [schedule]
  | cons e evs =>
      obtain ⟨now, d⟩ := e
      simp [schedule]

/-- Consecutive scheduled segments are gapless in order: each next segment
starts no earlier than the previous start plus its duration. -/
lemma schedule_chain (evs : List (ℚ × ℚ)) : ∀ c : ℚ,
    List.Chain' (fun a b : Segment => a.start + a.duration ≤ b.start) (schedule c evs) := by
  induction evs with
  | nil => intro c; simp [schedule]
  | cons e evs ih =>
      intro c
      obtain ⟨now, d⟩ := e
      rw [schedule, List.chain'_cons']
      refine ⟨?_, ih _⟩
      intro b hb
      have h := schedule_head_ge evs (max c now + d) b hb
      simpa using h

/-- Each scheduled segment starts no earlier than the clock value at its
enqueue and keeps its duration. -/
lemma schedule_forall2 (evs : List (ℚ × ℚ)) : ∀ c : ℚ,
    List.Forall₂ (fun (seg : Segment) (ev : ℚ × ℚ) => ev.1 ≤ seg.start ∧ seg.duration = ev.2)
      (schedule c evs) evs := by
  induction evs with
  | nil => intro c; exact List.Forall₂.nil
  | cons e evs ih =>
      intro c
      obtain ⟨now, d⟩ := e
      rw [schedule]
      exact List.Forall₂.cons ⟨le_max_right _ _, rfl⟩ (ih _)

/-- C2: for any sequence of segments enqueued into the Playback Scheduler
with durations d1..dn, segment k+1 is never scheduled to start before
segment k's scheduled start plus d_k, and no segment is scheduled to start
before the clock time current at the moment it is scheduled. -/
theorem scheduler_gapless_no_past_start (c0 : ℚ) (evs : List (ℚ × ℚ)) :
    List.Chain' (fun a b : Segment => a.start + a.duration ≤ b.start)
      (runEnqueues ⟨c0, []⟩ evs).sources
    ∧ List.Forall₂ (fun (seg : Segment) (ev : ℚ × ℚ) => ev.1 ≤ seg.start ∧ seg.duration = ev.2)
      (runEnqueues ⟨c0, []⟩ evs).sources evs := by
  rw [runEnqueues_sources]
  simp only [List.nil_append]
  exact ⟨schedule_chain evs c0, schedule_forall2 evs c0⟩

/-- C4: after flushAll the scheduled-segment set is empty and the cursor is
0, and the next enqueue starts its segment exactly at the current
(nonnegative) clock time rather than at the pre-flush cursor. -/
theorem flushAll_empties_and_next_starts_now (s : Sched) (now d : ℚ) (h : 0 ≤ now) :
    (flushAll s).sources = []
    ∧ (flushAll s).cursor = 0
    ∧ (enqueue now d (flushAll s)).1.start = now
    ∧ (enqueue now d (flushAll s)).2.sources = [⟨now, d⟩] := by
  refine ⟨rfl, rfl, ?_, ?_⟩ <;> simp [enqueue, flushAll, max_eq_right h]

/-- Witness for C4 at a flushed scheduler holding one stale segment, with
clock time 2 and a segment of duration one half. -/
theorem flushAll_empties_and_next_starts_now_witness :
    (0 : ℚ) ≤ 2
    ∧ ((flushAll ⟨5, [⟨1, 1⟩]⟩).sources = []
      ∧ (flushAll ⟨5, [⟨1, 1⟩]⟩).cursor = 0
      ∧ (enqueue 2 (1/2) (flushAll ⟨5, [⟨1, 1⟩]⟩)).1.start = 2
      ∧ (enqueue 2 (1/2) (flushAll ⟨5, [⟨1, 1⟩]⟩)).2.sources = [⟨2, 1/2⟩]) :=
  ⟨by norm_num, flushAll_empties_and_next_starts_now ⟨5, [⟨1, 1⟩]⟩ 2 (1/2) (by norm_num)⟩

/-! ## String and handler lemmas -/

/-- Appending to a non-empty string keeps it non-empty. -/
lemma str_append_ne_empty (s t : String) (h : s ≠ "") : s ++ t ≠ "" := by
  intro hc
  apply h
  cases s with | mk l =>
  cases t with | mk m =>
  have hd : l ++ m = [] := congrArg String.data hc
  have hl : l = [] := (List.append_eq_nil.mp hd).1
  simp [hl]

/-- Transcription append touches only the two text buffers. -/
lemma handleTranscription_unchanged (m : ServerMessage) (st : HookState) :
    (handleTranscription m st).writes = st.writes
    ∧ (handleTranscription m st).sessionId = st.sessionId
    ∧ (handleTranscription m st).sched = st.sched
    ∧ (handleTranscription m st).stopLog = st.stopLog
    ∧ (handleTranscription m st).enqueueLog = st.enqueueLog
    ∧ (handleTranscription m st).outputContextRef = st.outputContextRef
    ∧ (handleTranscription m st).outputGainSet = st.outputGainSet := by
  cases hi : m.inputTranscription <;> cases ho : m.outputTranscription <;>
    simp [handleTranscription, hi, ho]

/-- Transcription append keeps non-empty buffers non-empty. -/
lemma handleTranscription_ne_empty (m : ServerMessage) (st : HookState)
    (hin : st.currentInput ≠ "") (hout : st.currentOutput ≠ "") :
    (handleTranscription m st).currentInput ≠ ""
    ∧ (handleTranscription m st).currentOutput ≠ "" := by
  cases hi : m.inputTranscription with
  | none =>
      cases ho : m.outputTranscription with
      | none =>
          simp only [handleTranscription, hi, ho]
          exact ⟨hin, hout⟩
      | some t =>
          simp only [handleTranscription, hi, ho]
          exact ⟨hin, str_append_ne_empty _ _ hout⟩
  | some t =>
      cases ho : m.outputTranscription with
      | none =>
          simp only [handleTranscription, hi, ho]
          exact ⟨str_append_ne_empty _ _ hin, hout⟩
      | some u =>
          simp only [handleTranscription, hi, ho]
          exact ⟨str_append_ne_empty _ _ hin, str_append_ne_empty _ _ hout⟩

/-- Turn completion leaves the scheduler, the logs, and the session id
untouched. -/
lemma handleTurnComplete_unchanged (m : ServerMessage) (st : HookState) :
    (handleTurnComplete m st).sched = st.sched
    ∧ (handleTurnComplete m st).stopLog = st.stopLog
    ∧ (handleTurnComplete m st).enqueueLog = st.enqueueLog
    ∧ (handleTurnComplete m st).sessionId = st.sessionId
    ∧ (handleTurnComplete m st).outputContextRef = st.outputContextRef
    ∧ (handleTurnComplete m st).outputGainSet = st.outputGainSet := by
  cases h : m.turnComplete <;> simp only [handleTurnComplete, h] <;> split_ifs <;> simp

/-- On turn completion with both buffers non-empty, exactly the user write
then the model write are appended, both buffers clear, and speaking
clears. -/
lemma handleTurnComplete_both (m : ServerMessage) (st : HookState)
    (htc : m.turnComplete = true)
    (hin : st.currentInput ≠ "") (hout : st.currentOutput ≠ "") :
    (handleTurnComplete m st).writes
      = st.writes ++ [⟨"user", st.currentInput, st.sessionId⟩,
                      ⟨"model", st.currentOutput, st.sessionId⟩]
    ∧ (handleTurnComplete m st).currentInput = ""
    ∧ (handleTurnComplete m st).currentOutput = ""
    ∧ (handleTurnComplete m st).isSpeaking = false := by
  simp [handleTurnComplete, htc, hin, hout]

/-- The interruption branch: conditional marker flush of the model buffer,
all sources stopped and cleared, cursor zeroed, speaking cleared, enqueue
log untouched. -/
lemma handleInterruption_spec (st : HookState) :
    (handleInterruption st).writes
      = st.writes ++ (if st.currentOutput = "" then []
          else [⟨"model", st.currentOutput ++ " [INTERRUPTED]", st.sessionId⟩])
    ∧ (handleInterruption st).stopLog = st.stopLog ++ st.sched.sources
    ∧ (handleInterruption st).sched.sources = []
    ∧ (handleInterruption st).sched.cursor = 0
    ∧ (handleInterruption st).isSpeaking = false
    ∧ (handleInterruption st).currentOutput = ""
    ∧ (handleInterruption st).enqueueLog = st.enqueueLog
    ∧ (handleInterruption st).currentInput = st.currentInput := by
  by_cases h : st.currentOutput = "" <;> simp [handleInterruption, flushAll, h]

/-- A frame without audio data leaves the state unchanged in step 4. -/
lemma handleAudio_none (now : ℚ) (m : ServerMessage) (st : HookState)
    (hna : m.audioData = none) : handleAudio now m st = st := by
  simp [handleAudio, hna]

/-! ## Resource lemmas -/

/-- Membership after closing a context: survivors were present and are not
the closed one. -/
lemma mem_closeCtx {r : Option Nat} {l : List Nat} {c : Nat}
    (hc : c ∈ closeCtx r l) : c ∈ l ∧ r ≠ some c := by
  cases r with
  | none => exact ⟨hc, by simp⟩
  | some x =>
      simp only [closeCtx, List.mem_filter, bne_iff_ne, ne_eq, decide_not] at hc
      refine ⟨hc.1, ?_⟩
      intro h
      exact (by simpa using hc.2 : c ≠ x) (Option.some.inj h).symm

/-- Membership after stopping the ref'd stream: survivors were present and
are not the stopped one. -/
lemma mem_stopStream {r : Option Nat} {l : List Nat} {s : Nat}
    (hs : s ∈ stopStream r l) : s ∈ l ∧ r ≠ some s := by
  cases r with
  | none => exact ⟨hs, by simp⟩
  | some x =>
      simp only [stopStream, List.mem_filter, bne_iff_ne, ne_eq, decide_not] at hs
      refine ⟨hs.1, ?_⟩
      intro h
      exact (by simpa using hs.2 : s ≠ x) (Option.some.inj h).symm

/-- When every live stream is the ref'd one, stopping the ref'd stream
empties the list. -/
lemma stopStream_all (r : Option Nat) (l : List Nat)
    (h : ∀ s ∈ l, r = some s) : stopStream r l = [] := by
  rw [List.eq_nil_iff_forall_not_mem]
  intro s hs
  have h2 := mem_stopStream hs
  exact h2.2 (h s h2.1)

/-- When every open context is one of the two ref'd ones, closing both refs
empties the list. -/
lemma closeCtx_pair (inR outR : Option Nat) (l : List Nat)
    (h : ∀ c ∈ l, inR = some c ∨ outR = some c) :
    closeCtx outR (closeCtx inR l) = [] := by
  rw [List.eq_nil_iff_forall_not_mem]
  intro c hc
  have h2 := mem_closeCtx hc
  have h3 := mem_closeCtx h2.1
  rcases h c h3.1 with h4 | h4
  · exact h3.2 h4
  · exact h2.2 h4

/-- Teardown of an exclusively-owned session releases every mic stream and
every context. -/
lemma cleanup_resources_empty (st : HookState) (h : exclusiveResources st) :
    (cleanup st).liveMicStreams = [] ∧ (cleanup st).openContexts = [] := by
  constructor
  · exact stopStream_all _ _ h.2.1
  · exact closeCtx_pair _ _ _ h.2.2.2

/-- Stopping against an empty live list is a no-op. -/
lemma stopStream_nil (r : Option Nat) : stopStream r [] = [] := by
  cases r <;> rfl

/-- A connect on a state with no live mic stream and no open context yields
exclusively-owned resources whatever the environment does. -/
lemma connect_exclusive (env : Env) (c : HookState)
    (h1 : c.liveMicStreams = []) (h2 : c.openContexts = []) :
    exclusiveResources (connect env c) := by
  cases hk : env.hasApiKey with
  | false => simp [connect, hk, setStatus, exclusiveResources, h1, h2]
  | true =>
      cases hm : env.micGranted with
      | false =>
          simp [connect, hk, hm, cleanup, setStatus, exclusiveResources, h1, h2,
            stopStream_nil, closeCtx, Nat.succ_ne_self]
      | true => simp [connect, hk, hm, setStatus, exclusiveResources, h1, h2]

/-! ## Claim theorems -/

/-- C1: for every inbound message that sets the interrupted flag and also
carries inline audio data, the handler flushes the outbound transcript
buffer with the truncation marker " [INTERRUPTED]" appended (when that
buffer is non-empty), stops and clears every scheduled playback segment,
resets the playback cursor to 0, clears the speaking indicator, and does
not enqueue the message's audio into the scheduler. -/
theorem interruption_discards_audio (now : ℚ) (m : ServerMessage) (st : HookState)
    (hint : m.interrupted = true) (_haud : m.audioData.isSome = true) :
    (onmessage now m st).writes
      = (afterTranscripts m st).writes
        ++ (if (afterTranscripts m st).currentOutput = "" then []
            else [⟨"model", (afterTranscripts m st).currentOutput ++ " [INTERRUPTED]",
                   (afterTranscripts m st).sessionId⟩])
    ∧ (onmessage now m st).stopLog
      = (afterTranscripts m st).stopLog ++ (afterTranscripts m st).sched.sources
    ∧ (onmessage now m st).sched.sources = []
    ∧ (onmessage now m st).sched.cursor = 0
    ∧ (onmessage now m st).isSpeaking = false
    ∧ (onmessage now m st).currentOutput = ""
    ∧ (onmessage now m st).enqueueLog = st.enqueueLog := by
  have hon : onmessage now m st = handleInterruption (afterTranscripts m st) := by
    simp [onmessage, afterTranscripts, hint]
  have hI := handleInterruption_spec (afterTranscripts m st)
  have hT1 := handleTranscription_unchanged m st
  have hT2 := handleTurnComplete_unchanged m (handleTranscription m st)
  rw [hon]
  refine ⟨hI.1, hI.2.1, hI.2.2.1, hI.2.2.2.1, hI.2.2.2.2.1, hI.2.2.2.2.2.1, ?_⟩
  rw [hI.2.2.2.2.2.2.1]
  calc (afterTranscripts m st).enqueueLog
      = (handleTranscription m st).enqueueLog := by
        rw [afterTranscripts]; exact hT2.2.2.1
    _ = st.enqueueLog := hT1.2.2.2.2.1

/-- Witness for C1 at the mid-session state and an interrupt-with-audio
frame. -/
theorem interruption_discards_audio_witness :
    (exMsgInterruptAudio.interrupted = true
      ∧ exMsgInterruptAudio.audioData.isSome = true)
    ∧ ((onmessage 4 exMsgInterruptAudio exStLive).writes
        = (afterTranscripts exMsgInterruptAudio exStLive).writes
          ++ (if (afterTranscripts exMsgInterruptAudio exStLive).currentOutput = "" then []
              else [⟨"model",
                     (afterTranscripts exMsgInterruptAudio exStLive).currentOutput
                       ++ " [INTERRUPTED]",
                     (afterTranscripts exMsgInterruptAudio exStLive).sessionId⟩])
      ∧ (onmessage 4 exMsgInterruptAudio exStLive).stopLog
        = (afterTranscripts exMsgInterruptAudio exStLive).stopLog
          ++ (afterTranscripts exMsgInterruptAudio exStLive).sched.sources
      ∧ (onmessage 4 exMsgInterruptAudio exStLive).sched.sources = []
      ∧ (onmessage 4 exMsgInterruptAudio exStLive).sched.cursor = 0
      ∧ (onmessage 4 exMsgInterruptAudio exStLive).isSpeaking = false
      ∧ (onmessage 4 exMsgInterruptAudio exStLive).currentOutput = ""
      ∧ (onmessage 4 exMsgInterruptAudio exStLive).enqueueLog = exStLive.enqueueLog) :=
  ⟨⟨rfl, rfl⟩, interruption_discards_audio 4 exMsgInterruptAudio exStLive rfl rfl⟩

/-- C3 counterexample: at a connected state with a buffered model
transcript, a live mic stream and a scheduled segment, the channel error
callback issues no persistence write and releases nothing, so the in-flight
transcript is not flushed and no teardown runs, against the claim. -/
theorem onerror_no_flush_cex :
    exStLive.currentOutput = "yo"
    ∧ (onerror exStLive).status = SessionStatus.error
    ∧ (onerror exStLive).writes = []
    ∧ (onerror exStLive).currentOutput = "yo"
    ∧ (onerror exStLive).liveMicStreams = [2]
    ∧ (onerror exStLive).sched.sources = [{ start := 1, duration := 2 }] :=
  ⟨rfl, rfl, rfl, rfl, rfl, rfl⟩

/-- C3 (amended): on an asynchronous channel failure the status does become
error, but no teardown and no transcript flush runs: the write log, both
buffers, the mic stream, the contexts and the scheduler are all untouched
until a later disconnect. -/
theorem onerror_only_sets_error_status (st : HookState) :
    (onerror st).status = SessionStatus.error
    ∧ (onerror st).writes = st.writes
    ∧ (onerror st).currentInput = st.currentInput
    ∧ (onerror st).currentOutput = st.currentOutput
    ∧ (onerror st).streamRef = st.streamRef
    ∧ (onerror st).liveMicStreams = st.liveMicStreams
    ∧ (onerror st).openContexts = st.openContexts
    ∧ (onerror st).sched = st.sched :=
  ⟨rfl, rfl, rfl, rfl, rfl, rfl, rfl, rfl⟩

/-- C5 counterexample: with the key present and the microphone denied, the
status observed after the failed connect is disconnected, not error. -/
theorem connect_failure_status_cex :
    envMicDenied.hasApiKey = true
    ∧ envMicDenied.micGranted = false
    ∧ (connect envMicDenied initState).status = SessionStatus.disconnected
    ∧ ¬ (connect envMicDenied initState).status = SessionStatus.error := by
  refine ⟨rfl, rfl, rfl, ?_⟩
  decide

/-- C5 (amended): when connect fails at microphone acquisition, the catch
path sets status error and runs full teardown, but the teardown ends by
setting status disconnected, so the status observed after the failed
connect is disconnected rather than error. -/
theorem connect_micfail_error_then_teardown (env : Env) (st : HookState)
    (hkey : env.hasApiKey = true) (hmic : env.micGranted = false) :
    (connect env st).statusLog
      = st.statusLog ++ [SessionStatus.connecting, SessionStatus.error,
                         SessionStatus.disconnected]
    ∧ (connect env st).status = SessionStatus.disconnected
    ∧ (connect env st).streamRef = none
    ∧ (connect env st).inputContextRef = none
    ∧ (connect env st).outputContextRef = none
    ∧ (connect env st).sched.sources = []
    ∧ (connect env st).isSpeaking = false
    ∧ (connect env st).volume = 0
    ∧ (connect env st).currentInput = ""
    ∧ (connect env st).currentOutput = ""
    ∧ (connect env st).rafActive = false
    ∧ (connect env st).sessionRefSet = false := by
  simp [connect, hkey, hmic, cleanup, setStatus]

/-- Witness for C5 at the denied-microphone environment and the fresh
state. -/
theorem connect_micfail_error_then_teardown_witness :
    (envMicDenied.hasApiKey = true ∧ envMicDenied.micGranted = false)
    ∧ ((connect envMicDenied initState).statusLog
        = initState.statusLog ++ [SessionStatus.connecting, SessionStatus.error,
                                  SessionStatus.disconnected]
      ∧ (connect envMicDenied initState).status = SessionStatus.disconnected
      ∧ (connect envMicDenied initState).streamRef = none
      ∧ (connect envMicDenied initState).inputContextRef = none
      ∧ (connect envMicDenied initState).outputContextRef = none
      ∧ (connect envMicDenied initState).sched.sources = []
      ∧ (connect envMicDenied initState).isSpeaking = false
      ∧ (connect envMicDenied initState).volume = 0
      ∧ (connect envMicDenied initState).currentInput = ""
      ∧ (connect envMicDenied initState).currentOutput = ""
      ∧ (connect envMicDenied initState).rafActive = false
      ∧ (connect envMicDenied initState).sessionRefSet = false) :=
  ⟨⟨rfl, rfl⟩, connect_micfail_error_then_teardown envMicDenied initState rfl rfl⟩

/-- C6 counterexample: two connect calls with no disconnect between leave
two live microphone streams and four open AudioContexts at once. -/
theorem double_connect_two_mic_streams_cex :
    (connect envB (connect envA initState)).liveMicStreams.length = 2
    ∧ (connect envB (connect envA initState)).openContexts.length = 4 := by
  refine ⟨?_, ?_⟩ <;> decide

/-- C6 (amended): exclusive ownership of the microphone stream and the
audio contexts is preserved only when teardown runs between connects: from
an exclusively-owned state, cleanup releases everything, and a connect on
the cleaned state holds at most one live mic stream and at most the two
session contexts.  A second connect without the intervening teardown leaves
the first session's stream and contexts live (see the counterexample). -/
theorem exclusive_when_teardown_between_connects (st : HookState) (env : Env)
    (h : exclusiveResources st) :
    exclusiveResources (cleanup st)
    ∧ exclusiveResources (connect env (cleanup st)) := by
  obtain ⟨e1, e2⟩ := cleanup_resources_empty st h
  constructor
  · simp [exclusiveResources, e1, e2]
  · exact connect_exclusive env _ e1 e2

/-- Witness for C6 (amended) at the fresh state and a granting
environment. -/
theorem exclusive_when_teardown_between_connects_witness :
    exclusiveResources initState
    ∧ (exclusiveResources (cleanup initState)
      ∧ exclusiveResources (connect envA (cleanup initState))) :=
  ⟨by simp [exclusiveResources, initState],
   exclusive_when_teardown_between_connects initState envA
     (by simp [exclusiveResources, initState])⟩

/-- C7 counterexample: a turn-complete frame that also carries inline audio
leaves the speaking indicator set after handling (the audio step re-sets
it), against the claim that the indicator is cleared. -/
theorem turn_complete_with_audio_keeps_speaking_cex :
    exStLive.currentInput ≠ ""
    ∧ exStLive.currentOutput ≠ ""
    ∧ exMsgTurnAudio.turnComplete = true
    ∧ (onmessage 4 exMsgTurnAudio exStLive).isSpeaking = true := by
  refine ⟨by decide, by decide, rfl, by decide⟩

/-- C7 (amended): when a turn-complete frame arrives while both transcript
buffers are non-empty and the frame carries no inline audio, exactly two
persistence writes are issued, the user one first and the model one second,
each carrying the session identifier, both buffers are empty afterward, and
the speaking indicator is cleared.  A frame that also carries inline audio
re-sets the indicator in its audio step. -/
theorem turn_complete_flushes_both_buffers (now : ℚ) (m : ServerMessage) (st : HookState)
    (htc : m.turnComplete = true) (hna : m.audioData = none)
    (hin : st.currentInput ≠ "") (hout : st.currentOutput ≠ "") :
    (onmessage now m st).writes
      = st.writes ++ [⟨"user", (handleTranscription m st).currentInput, st.sessionId⟩,
                      ⟨"model", (handleTranscription m st).currentOutput, st.sessionId⟩]
    ∧ (onmessage now m st).currentInput = ""
    ∧ (onmessage now m st).currentOutput = ""
    ∧ (onmessage now m st).isSpeaking = false := by
  have hT1 := handleTranscription_unchanged m st
  have hne := handleTranscription_ne_empty m st hin hout
  have hB := handleTurnComplete_both m (handleTranscription m st) htc hne.1 hne.2
  cases hi : m.interrupted with
  | false =>
      have hon : onmessage now m st
          = handleTurnComplete m (handleTranscription m st) := by
        simp [onmessage, hi,
          handleAudio_none now m (handleTurnComplete m (handleTranscription m st)) hna]
      rw [hon]
      refine ⟨?_, hB.2.1, hB.2.2.1, hB.2.2.2⟩
      rw [hB.1, hT1.1, hT1.2.1]
  | true =>
      have hI := handleInterruption_spec (handleTurnComplete m (handleTranscription m st))
      have hon : onmessage now m st
          = handleInterruption (handleTurnComplete m (handleTranscription m st)) := by
        simp [onmessage, hi]
      rw [hon]
      refine ⟨?_, ?_, hI.2.2.2.2.2.1, hI.2.2.2.2.1⟩
      · rw [hI.1, hB.2.2.1]
        simp [hB.1, hT1.1, hT1.2.1]
      · rw [hI.2.2.2.2.2.2.2]
        exact hB.2.1

/-- Witness for C7 (amended) at the mid-session state and a turn-complete
frame with fragments and no audio. -/
theorem turn_complete_flushes_both_buffers_witness :
    (exMsgTurnOnly.turnComplete = true
      ∧ exMsgTurnOnly.audioData = none
      ∧ exStLive.currentInput ≠ ""
      ∧ exStLive.currentOutput ≠ "")
    ∧ ((onmessage 4 exMsgTurnOnly exStLive).writes
        = exStLive.writes
          ++ [⟨"user", (handleTranscription exMsgTurnOnly exStLive).currentInput,
               exStLive.sessionId⟩,
              ⟨"model", (handleTranscription exMsgTurnOnly exStLive).currentOutput,
               exStLive.sessionId⟩]
      ∧ (onmessage 4 exMsgTurnOnly exStLive).currentInput = ""
      ∧ (onmessage 4 exMsgTurnOnly exStLive).currentOutput = ""
      ∧ (onmessage 4 exMsgTurnOnly exStLive).isSpeaking = false) :=
  ⟨⟨rfl, rfl, by decide, by decide⟩,
   turn_complete_flushes_both_buffers 4 exMsgTurnOnly exStLive rfl rfl
     (by decide) (by decide)⟩

/-- C8: connect without the agent-access credential transitions directly to
status error and invokes neither microphone acquisition nor channel open:
no acquisition counter moves, no resource changes, and even the session id
is untouched. -/
theorem connect_without_key_fails_fast (env : Env) (st : HookState)
    (h : env.hasApiKey = false) :
    (connect env st).status = SessionStatus.error
    ∧ (connect env st).micAcquisitions = st.micAcquisitions
    ∧ (connect env st).channelOpens = st.channelOpens
    ∧ (connect env st).liveMicStreams = st.liveMicStreams
    ∧ (connect env st).streamRef = st.streamRef
    ∧ (connect env st).openContexts = st.openContexts
    ∧ (connect env st).inputContextRef = st.inputContextRef
    ∧ (connect env st).outputContextRef = st.outputContextRef
    ∧ (connect env st).sessionId = st.sessionId
    ∧ (connect env st).writes = st.writes := by
  simp [connect, h, setStatus]

/-- Witness for C8 at the keyless environment and the fresh state. -/
theorem connect_without_key_fails_fast_witness :
    envNoKey.hasApiKey = false
    ∧ ((connect envNoKey initState).status = SessionStatus.error
      ∧ (connect envNoKey initState).micAcquisitions = initState.micAcquisitions
      ∧ (connect envNoKey initState).channelOpens = initState.channelOpens
      ∧ (connect envNoKey initState).liveMicStreams = initState.liveMicStreams
      ∧ (connect envNoKey initState).streamRef = initState.streamRef
      ∧ (connect envNoKey initState).openContexts = initState.openContexts
      ∧ (connect envNoKey initState).inputContextRef = initState.inputContextRef
      ∧ (connect envNoKey initState).outputContextRef = initState.outputContextRef
      ∧ (connect envNoKey initState).sessionId = initState.sessionId
      ∧ (connect envNoKey initState).writes = initState.writes) :=
  ⟨rfl, connect_without_key_fails_fast envNoKey initState rfl⟩

/-- C9: disconnect is idempotent: each call leaves status disconnected, a
second call changes nothing further (up to the status event history), and
the resulting state has empty buffers, no scheduled segments, volume 0 and
speaking false. -/
theorem disconnect_idempotent (st : HookState) :
    (cleanup st).status = SessionStatus.disconnected
    ∧ (cleanup (cleanup st)).status = SessionStatus.disconnected
    ∧ { cleanup (cleanup st) with statusLog := [] }
      = { cleanup st with statusLog := [] }
    ∧ (cleanup st).currentInput = ""
    ∧ (cleanup st).currentOutput = ""
    ∧ (cleanup st).sched.sources = []
    ∧ (cleanup st).volume = 0
    ∧ (cleanup st).isSpeaking = false := by
  refine ⟨rfl, rfl, ?_, rfl, rfl, rfl, rfl, rfl⟩
  simp [cleanup, flushedWrites, stopStream, closeCtx]

/-- C10: whenever both transcript buffers are flushed in one step, on
teardown or on turn completion, and both are non-empty, the user write is
issued before the model write. -/
theorem flush_order_user_before_model (st : HookState) (m : ServerMessage)
    (hin : st.currentInput ≠ "") (hout : st.currentOutput ≠ "")
    (htc : m.turnComplete = true) :
    (cleanup st).writes
      = st.writes ++ [⟨"user", st.currentInput, st.sessionId⟩,
                      ⟨"model", st.currentOutput, st.sessionId⟩]
    ∧ (handleTurnComplete m st).writes
      = st.writes ++ [⟨"user", st.currentInput, st.sessionId⟩,
                      ⟨"model", st.currentOutput, st.sessionId⟩] := by
  constructor
  · simp [cleanup, flushedWrites, hin, hout]
  · exact (handleTurnComplete_both m st htc hin hout).1

/-- Witness for C10 at the mid-session state and the turn-complete frame. -/
theorem flush_order_user_before_model_witness :
    (exStLive.currentInput ≠ ""
      ∧ exStLive.currentOutput ≠ ""
      ∧ exMsgTurnOnly.turnComplete = true)
    ∧ ((cleanup exStLive).writes
        = exStLive.writes ++ [⟨"user", exStLive.currentInput, exStLive.sessionId⟩,
                              ⟨"model", exStLive.currentOutput, exStLive.sessionId⟩]
      ∧ (handleTurnComplete exMsgTurnOnly exStLive).writes
        = exStLive.writes ++ [⟨"user", exStLive.currentInput, exStLive.sessionId⟩,
                              ⟨"model", exStLive.currentOutput, exStLive.sessionId⟩]) :=
  ⟨⟨by decide, by decide, rfl⟩,
   flush_order_user_before_model exStLive exMsgTurnOnly (by decide) (by decide) rfl⟩
